import Mathlib

set_option linter.unusedVariables false

/-
Verification development for the renewable-energy dashboard (src/app.py).

The pandas DataFrame `energy_data` is embedded as a list of records.  Numeric
cells (the four energy columns, TWh floats in the source) are modeled as
rationals; years are integers and entities strings, as the loader enforces.
DataFrame operations are translated operation by operation:

  * `df[mask]`                 -> `List.filter`
  * `df.groupby(k)[c].sum()`   -> map over the ascending-sorted distinct keys
                                  (pandas sorts group keys) of the per-key sums
  * `.cumsum()`                -> a running-sum pass (`cumAux` and friends)
  * `.dropna` / `.fillna`      -> `Option` handling made explicit

Dash callbacks are embedded as total functions into small result types whose
constructors separate the placeholder-figure outcomes from the chart outcomes,
and `PreventUpdate` is a constructor of the map callback's result type.
-/

namespace EnergyDashboard

/-- Raw CSV row as `pd.read_csv` yields it, before `load_data` reshapes it:
the `Code` cell and the four energy cells may be missing. -/
structure RawRow where
  entity : String
  code : Option String
  year : Int
  wind : Option ℚ
  hydro : Option ℚ
  solar : Option ℚ
  other : Option ℚ
deriving DecidableEq, Repr

/-- Row of the loaded table: `Code` dropped, missing energy cells filled
with 0, `Year` an integer, `Entity` a string (app.py lines 21-43). -/
structure LoadedRow where
  entity : String
  year : Int
  wind : ℚ
  hydro : ℚ
  solar : ℚ
  other : ℚ
deriving DecidableEq, Repr

/-- Row of the working dataset after the geo-code resolution join
(app.py lines 98-102): an `ISO_A3` column has been added. -/
structure Row where
  entity : String
  iso : String
  year : Int
  wind : ℚ
  hydro : ℚ
  solar : ℚ
  other : ℚ
deriving DecidableEq, Repr

/-- Row of a per-year aggregation table with the four energy columns
(the DataFrames built by `groupby('Year')[...].sum()` in
`create_energy_area_fig`). -/
structure YearAgg where
  year : Int
  wind : ℚ
  hydro : ℚ
  solar : ℚ
  other : ℚ
deriving DecidableEq, Repr

/-- The four energy types of the `energy_types` dropdown mapping
(app.py lines 84-89). -/
inductive EnergyType where
  | wind
  | solar
  | hydro
  | other
deriving DecidableEq, Repr

/-- Column selector of an energy type on a working-dataset row. -/
def EnergyType.col : EnergyType → Row → ℚ
  | .wind => Row.wind
  | .solar => Row.solar
  | .hydro => Row.hydro
  | .other => Row.other

/-- CSV column name of an energy type (the `energy_types` dict values). -/
def EnergyType.columnName : EnergyType → String
  | .wind => "Electricity from wind - TWh"
  | .solar => "Electricity from solar - TWh"
  | .hydro => "Electricity from hydro - TWh"
  | .other => "Other renewables including bioenergy - TWh"

/-- Column selector of an energy type on a per-year aggregation row. -/
def EnergyType.agg : EnergyType → YearAgg → ℚ
  | .wind => YearAgg.wind
  | .solar => YearAgg.solar
  | .hydro => YearAgg.hydro
  | .other => YearAgg.other

/-- The energy types in the order of the `energy_types` dict
(Wind, Solar, Hydro, Other). -/
def energyTypesList : List EnergyType :=
  [EnergyType.wind, EnergyType.solar, EnergyType.hydro, EnergyType.other]

/- ==================================================================
   Data loading (app.py lines 21-50)
   ================================================================== -/

/-- Reshaping of one raw row by `load_data`: the `Code` cell is dropped,
each missing energy cell becomes 0 (`fillna(0)`), `Year` and `Entity`
keep their already-coerced integer and string values (`astype`). -/
def loadRow (r : RawRow) : LoadedRow :=
  { entity := r.entity
    year := r.year
    wind := r.wind.getD 0
    hydro := r.hydro.getD 0
    solar := r.solar.getD 0
    other := r.other.getD 0 }

/-- Column list of the DataFrame after `df.drop(columns='Code')`:
every column except `Code` survives. -/
def dropCode (cols : List String) : List String :=
  cols.filter (fun c => decide (c ≠ "Code"))

/-- Outcome of `pd.read_csv(filepath)` together with the in-`try` reshaping:
the file may be absent (`FileNotFoundError`), the content unparseable
(`pd.errors.ParserError`), some other exception may be raised, or a raw
table is produced. -/
inductive ReadResult where
  | ok (table : List RawRow)
  | fileNotFound (msg : String)
  | parserError (msg : String)
  | otherError (msg : String)
deriving DecidableEq, Repr

/-- Errors `load_data` lets escape (its `except` clauses, app.py lines 45-50).
The source message texts quote the CSV file name; the quotes are omitted
here. -/
inductive LoadError where
  | notFound (msg : String)
  | format (msg : String)
  | other (msg : String)
deriving DecidableEq, Repr

/-- Embedding of `load_data` (app.py lines 21-50): on success the rows are
reshaped by `loadRow`; `FileNotFoundError` is re-raised as a file-not-found
error with a fixed message, `ParserError` as a `ValueError` (a format
error) with a fixed message, and any other exception is re-raised
unchanged. -/
def load_data (input : ReadResult) : Except LoadError (List LoadedRow) :=
  match input with
  | .ok table => .ok (table.map loadRow)
  | .fileNotFound _ =>
      .error (.notFound "The data file modern-renewable-prod.csv was not found.")
  | .parserError _ =>
      .error (.format "Error parsing the CSV file. Please check the file format.")
  | .otherError e => .error (.other e)

/- ==================================================================
   Geo-code resolution (app.py lines 92-102)
   ================================================================== -/

/-- Embedding of `get_iso_alpha3` (app.py lines 92-96).  The external
`pycountry.countries.lookup` either returns a country code or raises
`LookupError`; it is passed in as a function into `Except Unit String`.
A lookup failure yields `none` rather than an exception. -/
def get_iso_alpha3 (lookup : String → Except Unit String) (entityName : String) :
    Option String :=
  match lookup entityName with
  | .ok code => some code
  | .error _ => none

/-- One row of the `ISO_A3` join: the row keeps its fields and gains the
resolved code, or is marked for removal when resolution failed. -/
def addIso (lookup : String → Except Unit String) (r : LoadedRow) : Option Row :=
  (get_iso_alpha3 lookup r.entity).map (fun c =>
    { entity := r.entity, iso := c, year := r.year,
      wind := r.wind, hydro := r.hydro, solar := r.solar, other := r.other })

/-- Embedding of app.py lines 98-102: `energy_data['ISO_A3'] =
energy_data['Entity'].apply(get_iso_alpha3)` followed by
`dropna(subset=['ISO_A3'])` — rows whose entity fails to resolve are
removed from the working dataset. -/
def resolveRows (lookup : String → Except Unit String) (rows : List LoadedRow) :
    List Row :=
  rows.filterMap (addIso lookup)

/- ==================================================================
   Aggregation helpers
   ================================================================== -/

/-- Distinct years of the table in ascending order: the group keys of
`groupby('Year')` (pandas sorts group keys ascending). -/
def sortedYears (rows : List Row) : List Int :=
  List.insertionSort (· ≤ ·) ((rows.map Row.year).dedup)

/-- One column of `groupby('Year')[col].sum()`: for each distinct year in
ascending order, the sum of `f` over the rows of that year. -/
def perYearSum (rows : List Row) (f : Row → ℚ) : List (Int × ℚ) :=
  (sortedYears rows).map (fun y =>
    (y, ((rows.filter (fun r => decide (r.year = y))).map f).sum))

/-- The full `groupby('Year')[energy_columns].sum()` table: one row per
distinct year in ascending order, all four energy columns summed. -/
def perYearAgg (rows : List Row) : List YearAgg :=
  (sortedYears rows).map (fun y =>
    { year := y
      wind := ((rows.filter (fun r => decide (r.year = y))).map Row.wind).sum
      hydro := ((rows.filter (fun r => decide (r.year = y))).map Row.hydro).sum
      solar := ((rows.filter (fun r => decide (r.year = y))).map Row.solar).sum
      other := ((rows.filter (fun r => decide (r.year = y))).map Row.other).sum })

/-- Running sum over the value column of a keyed list, keys untouched:
`cumsum()` applied while `Year` is still the index (the Energy Types area
path, app.py line 152). -/
def cumAux (acc : ℚ) : List (Int × ℚ) → List (Int × ℚ)
  | [] => []
  | p :: t => (p.1, acc + p.2) :: cumAux (acc + p.2) t

/-- Running sum over BOTH columns of a keyed list: `cumsum()` applied after
`reset_index()`, so the `Year` column is cumulatively summed too (the
Search area path, app.py line 532). -/
def cumAux2 (accY : Int) (accV : ℚ) : List (Int × ℚ) → List (Int × ℚ)
  | [] => []
  | p :: t => (accY + p.1, accV + p.2) :: cumAux2 (accY + p.1) (accV + p.2) t

/-- Columnwise running sums of a per-year aggregation table, the year kept
as is: `cumsum()` on the `groupby('Year')` result before `reset_index()`. -/
def cumAgg (aw ah asol aot : ℚ) : List YearAgg → List YearAgg
  | [] => []
  | x :: t =>
      { year := x.year, wind := aw + x.wind, hydro := ah + x.hydro,
        solar := asol + x.solar, other := aot + x.other } ::
        cumAgg (aw + x.wind) (ah + x.hydro) (asol + x.solar) (aot + x.other) t

/-- Largest value of the `Year` column (`data['Year'].max()`), 0 on the
empty table (pandas would yield NaN there; `create_worldwide_map` is only
reached with the non-empty working dataset). -/
def maxYear : List Row → Int
  | [] => 0
  | r :: t => (t.map Row.year).foldl max r.year

/- ==================================================================
   Chart builders (app.py lines 108-187)
   ================================================================== -/

/-- Embedding of `create_energy_pie_fig` (app.py lines 135-148): the data is
first grouped by entity with each energy column summed (`pie_data`), then the
four energy columns of that intermediate table are summed (`pie_sum`),
giving one slice per energy type.  The year argument only feeds the title
in the source. -/
def create_energy_pie_fig (rows : List Row) (year : Int) : List (String × ℚ) :=
  let keys := (rows.map Row.entity).dedup
  energyTypesList.map (fun t =>
    (t.columnName,
      (keys.map (fun e =>
        ((rows.filter (fun r => decide (r.entity = e))).map t.col).sum)).sum))

/-- Embedding of `create_energy_area_fig` (app.py lines 150-168): the
per-year sums of the four energy columns, cumulatively summed columnwise
when `cumulative` is true (the `cumsum()` runs before `reset_index()`, so
years are preserved). -/
def create_energy_area_fig (rows : List Row) (cumulative : Bool) : List YearAgg :=
  if cumulative then cumAgg 0 0 0 0 (perYearAgg rows)
  else perYearAgg rows

/-- Embedding of `create_worldwide_map` (app.py lines 170-187): only the rows
of the maximum year are kept, then grouped by the `(Entity, ISO_A3)` pair
with the selected energy column summed. -/
def create_worldwide_map (rows : List Row) (t : EnergyType) :
    List (String × String × ℚ) :=
  let latest := maxYear rows
  let mapRows := rows.filter (fun r => decide (r.year = latest))
  let keys := (mapRows.map (fun r => (r.entity, r.iso))).dedup
  keys.map (fun k =>
    (k.1, k.2,
      ((mapRows.filter (fun r => decide ((r.entity, r.iso) = k))).map t.col).sum))

/-- The Search view pie data (app.py line 521): the filtered rows grouped by
entity, the selected energy column summed per entity. -/
def searchPie (rows : List Row) (t : EnergyType) : List (String × ℚ) :=
  ((rows.map Row.entity).dedup).map (fun e =>
    (e, ((rows.filter (fun r => decide (r.entity = e))).map t.col).sum))

/-- The Search view area data (app.py line 532):
`groupby('Year')[energy_type].sum().reset_index().cumsum()` — the
`cumsum()` comes after `reset_index()`, so it runs over the `Year` column
as well as the value column. -/
def searchAreaData (rows : List Row) (t : EnergyType) : List (Int × ℚ) :=
  cumAux2 0 0 (perYearSum rows t.col)

/- ==================================================================
   Filters named by the spec (the masks of app.py lines 421-425, 479-484)
   ================================================================== -/

/-- Rows whose year equals the given value (the `Year == selected_year`
mask of `update_energy_types`). -/
def filterByYear (rows : List Row) (y : Int) : List Row :=
  rows.filter (fun r => decide (r.year = y))

/-- Rows whose year lies in the inclusive range (the
`Year >= year_range[0]` and `Year <= year_range[1]` masks of
`update_search_section`). -/
def filterByYearRange (rows : List Row) (a b : Int) : List Row :=
  rows.filter (fun r => decide (a ≤ r.year) && decide (r.year ≤ b))

/- ==================================================================
   Reactive callbacks (app.py lines 384-542)
   ================================================================== -/

/-- Result of the `update_worldwide_map` callback: either the update is
suppressed (`raise PreventUpdate`) or a fresh choropleth figure is
produced. -/
inductive MapOut where
  | preventUpdate
  | figure (mapData : List (String × String × ℚ))
deriving DecidableEq, Repr

/-- Embedding of `update_worldwide_map` (app.py lines 390-395): a missing
energy-type selection raises `PreventUpdate`; otherwise the choropleth is
rebuilt from the working dataset. -/
def update_worldwide_map (rows : List Row) (selectedEnergyType : Option EnergyType) :
    MapOut :=
  match selectedEnergyType with
  | none => MapOut.preventUpdate
  | some t => MapOut.figure (create_worldwide_map rows t)

/-- Result of the `update_energy_types` callback: a placeholder figure with
an explanatory title (returned three times over in the source), or the pie,
area and bar chart data.  The bar chart receives the filtered rows
unaggregated (`px.bar` does its own rendering). -/
inductive ViewOut where
  | placeholder (title : String)
  | charts (pie : List (String × ℚ)) (area : List YearAgg) (bar : List Row)
deriving DecidableEq, Repr

/-- Embedding of `update_energy_types` (app.py lines 409-451): missing year
or empty entity list short-circuits to a placeholder; an empty filtered
result short-circuits to a placeholder; otherwise the pie and bar charts
are built from the rows of the selected year and the area chart from all
rows up to and including the selected year. -/
def update_energy_types (rows : List Row) (selectedYear : Option Int)
    (selectedEntities : List String) : ViewOut :=
  match selectedYear with
  | none =>
      ViewOut.placeholder
        "Please select a year and at least one entity to display the data."
  | some y =>
      if selectedEntities = [] then
        ViewOut.placeholder
          "Please select a year and at least one entity to display the data."
      else
        let filtered := rows.filter (fun r =>
          decide (r.year = y) && selectedEntities.contains r.entity)
        if filtered = [] then
          ViewOut.placeholder
            "No data available for the selected year and entities."
        else
          ViewOut.charts
            (create_energy_pie_fig filtered y)
            (create_energy_area_fig
              (rows.filter (fun r =>
                decide (r.year ≤ y) && selectedEntities.contains r.entity))
              true)
            filtered

/-- Result of the `update_search_section` callback: a placeholder figure
with an explanatory title, or the four chart data.  The line and bar charts
receive the filtered rows unaggregated. -/
inductive SearchOut where
  | placeholder (title : String)
  | charts (line : List Row) (bar : List Row) (pie : List (String × ℚ))
      (area : List (Int × ℚ))
deriving DecidableEq, Repr

/-- Embedding of `update_search_section` (app.py lines 467-542): empty
region list or missing energy type short-circuits to a placeholder; an
empty filtered result short-circuits to a placeholder; otherwise the four
charts are built from the rows inside the inclusive year range whose entity
is among the selected regions. -/
def update_search_section (rows : List Row) (yearRange : Int × Int)
    (regions : List String) (energyType : Option EnergyType) : SearchOut :=
  match energyType with
  | none =>
      SearchOut.placeholder
        "Please select at least one region and an energy type to display the data."
  | some t =>
      if regions = [] then
        SearchOut.placeholder
          "Please select at least one region and an energy type to display the data."
      else
        let filtered := rows.filter (fun r =>
          decide (yearRange.1 ≤ r.year) && decide (r.year ≤ yearRange.2) &&
            regions.contains r.entity)
        if filtered = [] then
          SearchOut.placeholder "No data available for the selected filters."
        else
          SearchOut.charts filtered filtered (searchPie filtered t)
            (searchAreaData filtered t)

/- ==================================================================
   Concrete data for the spec scenarios
   ================================================================== -/

/-- The spec scenario input: Tunisia 2020 with wind 1 and solar 2, Tunisia
2021 with wind 3, all other cells 0. -/
def tunisiaRows : List Row :=
  [{ entity := "Tunisia", iso := "TUN", year := 2020,
     wind := 1, hydro := 0, solar := 2, other := 0 },
   { entity := "Tunisia", iso := "TUN", year := 2021,
     wind := 3, hydro := 0, solar := 0, other := 0 }]

/- ==================================================================
   Summation helpers: regrouping a sum by keys
   ================================================================== -/

/-- Helper: a sum of conditional contributions over keys not containing the
marked key collapses to the plain sum. -/
theorem sum_map_ite_not_mem {κ : Type} [DecidableEq κ] (c : ℚ) (g : κ → ℚ) :
    ∀ (keys : List κ) (x : κ), x ∉ keys →
      (keys.map (fun e => (if x = e then c else 0) + g e)).sum =
        (keys.map g).sum := by
  intro keys
  induction keys with
  | nil => intro x _; rfl
  | cons k t ih =>
      intro x hx
      have hxk : x ≠ k := fun h => hx (h ▸ List.mem_cons_self k t)
      have hxt : x ∉ t := fun h => hx (List.mem_cons_of_mem k h)
      simp only [List.map_cons, List.sum_cons, if_neg hxk, ih x hxt, zero_add]

/-- Helper: over a duplicate-free key list containing the marked key, a sum
of conditional contributions adds the marked contribution exactly once. -/
theorem sum_map_ite_add {κ : Type} [DecidableEq κ] (c : ℚ) (g : κ → ℚ) :
    ∀ (keys : List κ) (x : κ), keys.Nodup → x ∈ keys →
      (keys.map (fun e => (if x = e then c else 0) + g e)).sum =
        c + (keys.map g).sum := by
  intro keys
  induction keys with
  | nil => intro x _ hx; cases hx
  | cons k t ih =>
      intro x hnd hx
      rcases List.mem_cons.mp hx with hxk | hxt
      · subst hxk
        have hxt : x ∉ t := (List.nodup_cons.mp hnd).1
        have htail := sum_map_ite_not_mem c g t x hxt
        simp only [List.map_cons, List.sum_cons, htail]
        simp
        ring
      · have hxk : x ≠ k := by
          intro h
          exact (List.nodup_cons.mp hnd).1 (h ▸ hxt)
        simp only [List.map_cons, List.sum_cons]
        rw [ih x (List.nodup_cons.mp hnd).2 hxt, if_neg hxk]
        ring

/-- Helper: grouping rows by a key over a duplicate-free key list covering
every row and summing the per-group sums gives the plain total — the
pandas pattern `groupby(k)[c].sum()` followed by a second `sum()`. -/
theorem sum_over_groups {α κ : Type} [DecidableEq κ] (f : α → ℚ) (k : α → κ) :
    ∀ (rows : List α) (keys : List κ), keys.Nodup →
      (∀ r ∈ rows, k r ∈ keys) →
      (keys.map (fun e =>
        ((rows.filter (fun r => decide (k r = e))).map f).sum)).sum
        = (rows.map f).sum := by
  intro rows
  induction rows with
  | nil =>
      intro keys _ _
      simp
  | cons r rs ih =>
      intro keys hnd hcov
      have hstep : ∀ e ∈ keys,
          (((r :: rs).filter (fun x => decide (k x = e))).map f).sum =
            (if k r = e then f r else 0) +
              ((rs.filter (fun x => decide (k x = e))).map f).sum := by
        intro e _
        by_cases h : k r = e
        · simp [List.filter_cons, h]
        · simp [List.filter_cons, h]
      rw [List.map_congr_left hstep,
        sum_map_ite_add (f r)
          (fun e => ((rs.filter (fun x => decide (k x = e))).map f).sum)
          keys (k r) hnd (hcov r (List.mem_cons_self r rs)),
        ih keys hnd (fun x hx => hcov x (List.mem_cons_of_mem r hx))]
      simp

/-- Helper: the entity-grouped sums of `create_energy_pie_fig` add up to the
plain column total. -/
theorem pie_group_total (rows : List Row) (f : Row → ℚ) :
    (((rows.map Row.entity).dedup).map (fun e =>
      ((rows.filter (fun r => decide (r.entity = e))).map f).sum)).sum
      = (rows.map f).sum :=
  sum_over_groups f Row.entity rows _ (List.nodup_dedup _)
    (fun r hr => List.mem_dedup.mpr (List.mem_map_of_mem Row.entity hr))

/-- Helper: every energy type is listed in the dict order. -/
theorem mem_energyTypesList (t : EnergyType) : t ∈ energyTypesList := by
  cases t <;> simp [energyTypesList]

/-- Helper: the pie builder's entity grouping cancels, leaving the plain
column totals. -/
theorem create_energy_pie_fig_eq (rows : List Row) (year : Int) :
    create_energy_pie_fig rows year =
      energyTypesList.map (fun t => (t.columnName, (rows.map t.col).sum)) := by
  simp only [create_energy_pie_fig]
  apply List.map_congr_left
  intro t _
  rw [pie_group_total rows t.col]

/- ==================================================================
   C10: pie slices
   ================================================================== -/

/-- C10: the Energy Types pie has exactly one slice per energy type, four
in all, and each slice value is the plain sum of that energy column over
the whole input — the intermediate grouping by entity has no effect. -/
theorem create_energy_pie_fig_slices :
    ∀ (rows : List Row) (year : Int),
      create_energy_pie_fig rows year =
        energyTypesList.map (fun t => (t.columnName, (rows.map t.col).sum)) ∧
      (create_energy_pie_fig rows year).length = 4 ∧
      (∀ t : EnergyType,
        (t.columnName, (rows.map t.col).sum) ∈ create_energy_pie_fig rows year) := by
  intro rows year
  refine ⟨create_energy_pie_fig_eq rows year, ?_, ?_⟩
  · rw [create_energy_pie_fig_eq]; rfl
  · intro t
    rw [create_energy_pie_fig_eq]
    exact List.mem_map_of_mem _ (mem_energyTypesList t)

/- ==================================================================
   C4: loader post-conditions
   ================================================================== -/

/-- Helper: dropping the `Code` column from a duplicate-free column list
containing it removes exactly one column. -/
theorem dropCode_length :
    ∀ (cols : List String), cols.Nodup → "Code" ∈ cols →
      (dropCode cols).length + 1 = cols.length := by
  intro cols
  induction cols with
  | nil => intro _ h; cases h
  | cons c t ih =>
      intro hnd hmem
      rcases List.nodup_cons.mp hnd with ⟨hcnot, hndt⟩
      by_cases h : c = "Code"
      · subst h
        have hfix : t.filter (fun c => decide (c ≠ "Code")) = t := by
          apply List.filter_eq_self.mpr
          intro a ha
          by_contra hcon
          simp at hcon
          exact hcnot (hcon ▸ ha)
        simp only [dropCode, List.filter_cons]
        rw [if_neg (by simp), hfix]
        simp
      · have hmem' : "Code" ∈ t := by
          rcases List.mem_cons.mp hmem with h' | h'
          · exact absurd h'.symm h
          · exact h'
        have ihres := ih hndt hmem'
        simp only [dropCode, List.filter_cons] at ihres ⊢
        simp [h] at ihres ⊢
        omega

/-- C4: for every accepted input, loading drops exactly the one `Code`
column (all other columns survive), leaves no missing value in the four
energy columns (each cell is the raw value, or 0 where it was missing), and
keeps the integer year and string entity of each row. -/
theorem load_data_postconditions (raws : List RawRow) (cols : List String)
    (hnd : cols.Nodup) (hcode : "Code" ∈ cols) :
    ((dropCode cols).length + 1 = cols.length) ∧
    ("Code" ∉ dropCode cols) ∧
    (∀ c ∈ cols, c ≠ "Code" → c ∈ dropCode cols) ∧
    (∀ c ∈ dropCode cols, c ∈ cols) ∧
    (load_data (ReadResult.ok raws) = Except.ok (raws.map loadRow)) ∧
    (∀ r ∈ raws,
      (loadRow r).entity = r.entity ∧ (loadRow r).year = r.year ∧
      (r.wind = none → (loadRow r).wind = 0) ∧
      (∀ v, r.wind = some v → (loadRow r).wind = v) ∧
      (r.hydro = none → (loadRow r).hydro = 0) ∧
      (∀ v, r.hydro = some v → (loadRow r).hydro = v) ∧
      (r.solar = none → (loadRow r).solar = 0) ∧
      (∀ v, r.solar = some v → (loadRow r).solar = v) ∧
      (r.other = none → (loadRow r).other = 0) ∧
      (∀ v, r.other = some v → (loadRow r).other = v)) := by
  refine ⟨dropCode_length cols hnd hcode, ?_, ?_, ?_, rfl, ?_⟩
  · intro h
    simp [dropCode, List.mem_filter] at h
  · intro c hc hne
    simp [dropCode, List.mem_filter, hc, hne]
  · intro c hc
    exact (List.mem_filter.mp hc).1
  · intro r _
    refine ⟨rfl, rfl, ?_, ?_, ?_, ?_, ?_, ?_, ?_, ?_⟩ <;>
      first
        | (intro h; simp [loadRow, h])
        | (intro v h; simp [loadRow, h])

/-- Column list of the source CSV (spec section 6), used to instantiate the
loader post-conditions. -/
def demoCols : List String :=
  ["Entity", "Code", "Year", "Electricity from wind - TWh",
   "Electricity from hydro - TWh", "Electricity from solar - TWh",
   "Other renewables including bioenergy - TWh"]

/-- Witness: the loader post-conditions at the source CSV column list. -/
theorem load_data_postconditions_witness : "Code" ∉ dropCode demoCols :=
  (load_data_postconditions [] demoCols (by decide) (by decide)).2.1

/- ==================================================================
   C3: empty selections and empty filtered results are placeholders
   ================================================================== -/

/-- C3: empty selections and empty filtered results are not errors: both
view callbacks return a placeholder figure with an explanatory title in
every such case — in particular a selected year with an empty entity list
yields the select-a-year-and-at-least-one-entity placeholder, and an empty
filtered input yields the no-data placeholder. -/
theorem view_callbacks_empty_placeholder (rows : List Row) (y : Int)
    (es regions : List String) (yr : Int × Int) (t : EnergyType)
    (hes : es ≠ []) (hre : regions ≠ [])
    (hfe : rows.filter (fun r =>
      decide (r.year = y) && es.contains r.entity) = [])
    (hfs : rows.filter (fun r =>
      decide (yr.1 ≤ r.year) && decide (r.year ≤ yr.2) &&
        regions.contains r.entity) = []) :
    (update_energy_types rows none es = ViewOut.placeholder
      "Please select a year and at least one entity to display the data.") ∧
    (update_energy_types rows (some y) [] = ViewOut.placeholder
      "Please select a year and at least one entity to display the data.") ∧
    (update_energy_types rows (some y) es = ViewOut.placeholder
      "No data available for the selected year and entities.") ∧
    (update_search_section rows yr [] (some t) = SearchOut.placeholder
      "Please select at least one region and an energy type to display the data.") ∧
    (update_search_section rows yr regions none = SearchOut.placeholder
      "Please select at least one region and an energy type to display the data.") ∧
    (update_search_section rows yr regions (some t) = SearchOut.placeholder
      "No data available for the selected filters.") := by
  refine ⟨rfl, by simp [update_energy_types], ?_, by simp [update_search_section],
    rfl, ?_⟩
  · simp only [update_energy_types, if_neg hes, if_pos hfe]
  · simp only [update_search_section, if_neg hre, if_pos hfs]

/-- Witness: the placeholder outcomes at a concrete empty dataset and the
concrete selections of the spec scenario. -/
theorem view_callbacks_empty_placeholder_witness :
    update_energy_types ([] : List Row) (some 2021) [] = ViewOut.placeholder
      "Please select a year and at least one entity to display the data." :=
  (view_callbacks_empty_placeholder [] 2021 ["Tunisia"] ["Tunisia"] (2020, 2021)
    EnergyType.wind (by decide) (by decide) (by decide) (by decide)).2.1

/- ==================================================================
   C6: geo-code resolver
   ================================================================== -/

/-- C6: the resolver returns a code or absent, never raising — a lookup
failure yields absent — and after the startup join every row of the working
dataset carries a resolved code, so an unresolvable entity such as World
appears in no view's data. -/
theorem geo_resolver_spec (lookup : String → Except Unit String)
    (rows : List LoadedRow) (name : String) (r : Row)
    (hr : r ∈ resolveRows lookup rows) :
    (∀ u : Unit, lookup name = Except.error u →
      get_iso_alpha3 lookup name = none) ∧
    (∀ c : String, lookup name = Except.ok c →
      get_iso_alpha3 lookup name = some c) ∧
    (get_iso_alpha3 lookup r.entity = some r.iso) ∧
    (get_iso_alpha3 lookup "World" = none → r.entity ≠ "World") := by
  have hres : get_iso_alpha3 lookup r.entity = some r.iso := by
    obtain ⟨r0, hr0, hmap⟩ := List.mem_filterMap.mp hr
    unfold addIso at hmap
    cases hiso : get_iso_alpha3 lookup r0.entity with
    | none => rw [hiso] at hmap; simp at hmap
    | some c =>
        rw [hiso, Option.map_some'] at hmap
        have hmk := Option.some.inj hmap
        rw [← hmk]
        exact hiso
  refine ⟨?_, ?_, hres, ?_⟩
  · intro u h; simp [get_iso_alpha3, h]
  · intro c h; simp [get_iso_alpha3, h]
  · intro hw hent
    rw [hent, hw] at hres
    exact Option.noConfusion hres

/-- Lookup used to instantiate the resolver theorem: Tunisia resolves,
every other entity (World among them) raises `LookupError`. -/
def demoLookup : String → Except Unit String :=
  fun n => if n = "Tunisia" then Except.ok "TUN" else Except.error ()

/-- Loaded rows used to instantiate the resolver theorem: one resolvable
entity and the unresolvable aggregate World. -/
def demoLoadedRows : List LoadedRow :=
  [{ entity := "Tunisia", year := 2020, wind := 1, hydro := 0, solar := 2, other := 0 },
   { entity := "World", year := 2020, wind := 5, hydro := 5, solar := 5, other := 5 }]

/-- The one row that survives the resolution join on `demoLoadedRows`. -/
def demoResolvedRow : Row :=
  { entity := "Tunisia", iso := "TUN", year := 2020,
    wind := 1, hydro := 0, solar := 2, other := 0 }

/-- Witness: the resolver theorem at the concrete lookup and dataset. -/
theorem geo_resolver_spec_witness :
    get_iso_alpha3 demoLookup demoResolvedRow.entity = some demoResolvedRow.iso ∧
    (get_iso_alpha3 demoLookup "World" = none →
      demoResolvedRow.entity ≠ "World") :=
  ⟨(geo_resolver_spec demoLookup demoLoadedRows "World" demoResolvedRow
      (by decide)).2.2.1,
   (geo_resolver_spec demoLookup demoLoadedRows "World" demoResolvedRow
      (by decide)).2.2.2⟩

/- ==================================================================
   Ordering and running-sum machinery
   ================================================================== -/

/-- Helper: the distinct-year list is weakly sorted. -/
theorem sortedYears_sorted (rows : List Row) :
    (sortedYears rows).Sorted (· ≤ ·) :=
  List.sorted_insertionSort _ _

/-- Helper: the distinct-year list has no duplicate. -/
theorem sortedYears_nodup (rows : List Row) : (sortedYears rows).Nodup :=
  (List.perm_insertionSort _ _).nodup_iff.mpr (List.nodup_dedup _)

/-- Helper: a year is a group key exactly when some row carries it. -/
theorem mem_sortedYears (rows : List Row) (y : Int) :
    y ∈ sortedYears rows ↔ ∃ r ∈ rows, r.year = y := by
  unfold sortedYears
  rw [(List.perm_insertionSort _ _).mem_iff, List.mem_dedup, List.mem_map]

/-- Helper: the distinct-year list is strictly sorted. -/
theorem sortedYears_strict (rows : List Row) :
    (sortedYears rows).Sorted (· < ·) :=
  (sortedYears_sorted rows).lt_of_le (sortedYears_nodup rows)

/-- Helper: mapping a key-preserving constructor over a key list and then
projecting the keys back is the identity. -/
theorem map_key_eq {α β : Type} (F : α → β) (proj : β → α)
    (hF : ∀ y, proj (F y) = y) :
    ∀ ys : List α, (ys.map F).map proj = ys := by
  intro ys
  induction ys with
  | nil => rfl
  | cons a t ih => simp [ih, hF]

/-- Helper: the keys of a per-year sum table are the sorted distinct years. -/
theorem perYearSum_keys (rows : List Row) (f : Row → ℚ) :
    (perYearSum rows f).map Prod.fst = sortedYears rows := by
  unfold perYearSum
  exact map_key_eq _ _ (fun y => rfl) _

/-- Helper: the keys of a per-year sum table are strictly ascending. -/
theorem perYearSum_strict (rows : List Row) (f : Row → ℚ) :
    (perYearSum rows f).Pairwise (fun p q => p.1 < q.1) := by
  unfold perYearSum
  rw [List.pairwise_map]
  exact sortedYears_strict rows

/-- Helper: the keys of a running-sum table equal the input keys. -/
theorem cumAux_keys : ∀ (l : List (Int × ℚ)) (acc : ℚ),
    (cumAux acc l).map Prod.fst = l.map Prod.fst := by
  intro l
  induction l with
  | nil => intro acc; rfl
  | cons p t ih => intro acc; simp [cumAux, ih]

/-- Helper: in a running-sum table over strictly ascending keys, the value
at key `y` is the accumulator plus the sum of all input values with key at
most `y`. -/
theorem cumAux_value : ∀ (l : List (Int × ℚ)),
    l.Pairwise (fun p q => p.1 < q.1) → ∀ (acc : ℚ) (y : Int) (v : ℚ),
      (y, v) ∈ cumAux acc l →
      v = acc + ((l.filter (fun q => decide (q.1 ≤ y))).map Prod.snd).sum := by
  intro l
  induction l with
  | nil => intro _ acc y v h; cases h
  | cons p t ih =>
      intro hpw acc y v h
      rcases List.pairwise_cons.mp hpw with ⟨hhead, htail⟩
      simp only [cumAux] at h
      rcases List.mem_cons.mp h with hh | ht
      · rw [Prod.mk.injEq] at hh
        obtain ⟨hy, hv⟩ := hh
        subst hy
        have hzero : t.filter (fun q => decide (q.1 ≤ p.1)) = [] := by
          apply List.filter_eq_nil_iff.mpr
          intro q hq
          have := hhead q hq
          simp
          omega
        rw [List.filter_cons, if_pos (by simp), hzero]
        simpa using hv
      · have hval := ih htail (acc + p.2) y v ht
        have hykey : y ∈ t.map Prod.fst := by
          have hmem : (y, v).1 ∈ (cumAux (acc + p.2) t).map Prod.fst :=
            List.mem_map_of_mem Prod.fst ht
          rwa [cumAux_keys] at hmem
        obtain ⟨q, hq, hqy⟩ := List.mem_map.mp hykey
        have hlt : p.1 < y := hqy ▸ hhead q hq
        rw [List.filter_cons, if_pos (by simp; omega)]
        simp only [List.map_cons, List.sum_cons]
        rw [hval]
        ring

/-- Helper: summing the values of a filtered keyed map commutes with the
filter on the underlying keys. -/
theorem sum_filter_map_sum (g : Int → ℚ) (p : Int → Bool) :
    ∀ ys : List Int,
      (((ys.map (fun y0 => (y0, g y0))).filter (fun q => p q.1)).map Prod.snd).sum
        = ((ys.filter p).map g).sum := by
  intro ys
  induction ys with
  | nil => rfl
  | cons a t ih =>
      by_cases h : p a = true
      · simp [List.filter_cons, h, ih]
      · simp [List.filter_cons, h, ih]

/-- Helper: the prefix of a per-year sum table up to year `y` adds up to the
plain sum over the rows with year at most `y`. -/
theorem perYearSum_filter_le (rows : List Row) (f : Row → ℚ) (y : Int) :
    (((perYearSum rows f).filter (fun q => decide (q.1 ≤ y))).map Prod.snd).sum
      = ((rows.filter (fun r => decide (r.year ≤ y))).map f).sum := by
  unfold perYearSum
  rw [sum_filter_map_sum
    (fun y0 => ((rows.filter (fun r => decide (r.year = y0))).map f).sum)
    (fun y0 => decide (y0 ≤ y)) (sortedYears rows)]
  have hcong : ∀ y0 ∈ (sortedYears rows).filter (fun y0 => decide (y0 ≤ y)),
      ((rows.filter (fun r => decide (r.year = y0))).map f).sum =
        (((rows.filter (fun r => decide (r.year ≤ y))).filter
          (fun r => decide (r.year = y0))).map f).sum := by
    intro y0 hy0
    have hle : y0 ≤ y := by
      have := (List.mem_filter.mp hy0).2
      simpa using this
    have hfeq : rows.filter (fun r => decide (r.year = y0)) =
        (rows.filter (fun r => decide (r.year ≤ y))).filter
          (fun r => decide (r.year = y0)) := by
      rw [List.filter_filter]
      apply List.filter_congr
      intro r _
      by_cases h : r.year = y0
      · have hry : r.year ≤ y := by omega
        simp [h, hry, hle]
      · simp [h]
    rw [← hfeq]
  rw [List.map_congr_left hcong]
  exact sum_over_groups f Row.year _ _ ((sortedYears_nodup rows).filter _)
    (fun r hr => by
      rcases List.mem_filter.mp hr with ⟨hrow, hle⟩
      exact List.mem_filter.mpr
        ⟨(mem_sortedYears rows r.year).mpr ⟨r, hrow, rfl⟩, hle⟩)

/- ==================================================================
   Projections of the four-column cumulative table
   ================================================================== -/

/-- Helper: the wind column of the columnwise running sums is the running
sum of the wind column. -/
theorem cumAgg_map_wind : ∀ (l : List YearAgg) (aw ah asol aot : ℚ),
    (cumAgg aw ah asol aot l).map (fun x => (x.year, x.wind)) =
      cumAux aw (l.map (fun x => (x.year, x.wind))) := by
  intro l
  induction l with
  | nil => intro aw ah asol aot; rfl
  | cons x t ih => intro aw ah asol aot; simp [cumAgg, cumAux, ih]

/-- Helper: the hydro column of the columnwise running sums is the running
sum of the hydro column. -/
theorem cumAgg_map_hydro : ∀ (l : List YearAgg) (aw ah asol aot : ℚ),
    (cumAgg aw ah asol aot l).map (fun x => (x.year, x.hydro)) =
      cumAux ah (l.map (fun x => (x.year, x.hydro))) := by
  intro l
  induction l with
  | nil => intro aw ah asol aot; rfl
  | cons x t ih => intro aw ah asol aot; simp [cumAgg, cumAux, ih]

/-- Helper: the solar column of the columnwise running sums is the running
sum of the solar column. -/
theorem cumAgg_map_solar : ∀ (l : List YearAgg) (aw ah asol aot : ℚ),
    (cumAgg aw ah asol aot l).map (fun x => (x.year, x.solar)) =
      cumAux asol (l.map (fun x => (x.year, x.solar))) := by
  intro l
  induction l with
  | nil => intro aw ah asol aot; rfl
  | cons x t ih => intro aw ah asol aot; simp [cumAgg, cumAux, ih]

/-- Helper: the other-renewables column of the columnwise running sums is
the running sum of that column. -/
theorem cumAgg_map_other : ∀ (l : List YearAgg) (aw ah asol aot : ℚ),
    (cumAgg aw ah asol aot l).map (fun x => (x.year, x.other)) =
      cumAux aot (l.map (fun x => (x.year, x.other))) := by
  intro l
  induction l with
  | nil => intro aw ah asol aot; rfl
  | cons x t ih => intro aw ah asol aot; simp [cumAgg, cumAux, ih]

/-- Helper: the years of the columnwise running sums are the input years. -/
theorem cumAgg_years : ∀ (l : List YearAgg) (aw ah asol aot : ℚ),
    (cumAgg aw ah asol aot l).map YearAgg.year = l.map YearAgg.year := by
  intro l
  induction l with
  | nil => intro aw ah asol aot; rfl
  | cons x t ih => intro aw ah asol aot; simp [cumAgg, ih]

/-- Helper: each energy column of the full per-year table is the matching
single-column per-year sum table. -/
theorem perYearAgg_proj (rows : List Row) (t : EnergyType) :
    (perYearAgg rows).map (fun x => (x.year, t.agg x)) = perYearSum rows t.col := by
  cases t <;>
    simp [perYearAgg, perYearSum, List.map_map, Function.comp,
      EnergyType.agg, EnergyType.col]

/-- Helper: projecting one energy column out of the cumulative area table
gives the single-column running sums of that column. -/
theorem area_fig_proj (rows : List Row) (t : EnergyType) :
    (create_energy_area_fig rows true).map (fun x => (x.year, t.agg x)) =
      cumAux 0 (perYearSum rows t.col) := by
  unfold create_energy_area_fig
  rw [if_pos rfl]
  cases t
  · rw [show (fun x : YearAgg => (x.year, EnergyType.wind.agg x)) =
        (fun x : YearAgg => (x.year, x.wind)) from rfl,
      cumAgg_map_wind]
    rw [show (fun x : YearAgg => (x.year, x.wind)) =
        (fun x : YearAgg => (x.year, EnergyType.wind.agg x)) from rfl,
      perYearAgg_proj]
  · rw [show (fun x : YearAgg => (x.year, EnergyType.solar.agg x)) =
        (fun x : YearAgg => (x.year, x.solar)) from rfl,
      cumAgg_map_solar]
    rw [show (fun x : YearAgg => (x.year, x.solar)) =
        (fun x : YearAgg => (x.year, EnergyType.solar.agg x)) from rfl,
      perYearAgg_proj]
  · rw [show (fun x : YearAgg => (x.year, EnergyType.hydro.agg x)) =
        (fun x : YearAgg => (x.year, x.hydro)) from rfl,
      cumAgg_map_hydro]
    rw [show (fun x : YearAgg => (x.year, x.hydro)) =
        (fun x : YearAgg => (x.year, EnergyType.hydro.agg x)) from rfl,
      perYearAgg_proj]
  · rw [show (fun x : YearAgg => (x.year, EnergyType.other.agg x)) =
        (fun x : YearAgg => (x.year, x.other)) from rfl,
      cumAgg_map_other]
    rw [show (fun x : YearAgg => (x.year, x.other)) =
        (fun x : YearAgg => (x.year, EnergyType.other.agg x)) from rfl,
      perYearAgg_proj]

/-- Helper: each column of an entry of the cumulative area table is the
plain sum of that energy column over the rows up to the entry's year. -/
theorem area_entry (rows : List Row) (t : EnergyType) (x : YearAgg)
    (hx : x ∈ create_energy_area_fig rows true) :
    t.agg x = ((rows.filter (fun r => decide (r.year ≤ x.year))).map t.col).sum := by
  have hmem : (x.year, t.agg x) ∈
      (create_energy_area_fig rows true).map (fun x => (x.year, t.agg x)) :=
    List.mem_map_of_mem _ hx
  rw [area_fig_proj rows t] at hmem
  have hv := cumAux_value _ (perYearSum_strict rows t.col) 0 x.year (t.agg x) hmem
  rw [hv, zero_add, perYearSum_filter_le]

/-- Helper: the years of the cumulative area table are exactly the distinct
years of its input. -/
theorem area_years (rows : List Row) :
    (create_energy_area_fig rows true).map YearAgg.year = sortedYears rows := by
  unfold create_energy_area_fig
  rw [if_pos rfl, cumAgg_years]
  unfold perYearAgg
  exact map_key_eq _ _ (fun y => rfl) _

/- ==================================================================
   Maximum-year machinery
   ================================================================== -/

/-- Helper: a left fold with `max` never goes below its seed. -/
theorem foldl_max_init_le : ∀ (l : List Int) (a : Int), a ≤ l.foldl max a := by
  intro l
  induction l with
  | nil => intro a; exact le_refl a
  | cons b t ih =>
      intro a
      exact le_trans (le_max_left a b) (ih (max a b))

/-- Helper: a left fold with `max` dominates every list element. -/
theorem foldl_max_mem_le : ∀ (l : List Int) (a x : Int), x ∈ l → x ≤ l.foldl max a := by
  intro l
  induction l with
  | nil => intro a x hx; cases hx
  | cons b t ih =>
      intro a x hx
      rcases List.mem_cons.mp hx with h | h
      · subst h
        exact le_trans (le_max_right a x) (foldl_max_init_le t (max a x))
      · exact ih (max a b) x h

/-- Helper: a left fold with `max` is the seed or one of the elements. -/
theorem foldl_max_mem_or : ∀ (l : List Int) (a : Int),
    l.foldl max a = a ∨ l.foldl max a ∈ l := by
  intro l
  induction l with
  | nil => intro a; exact Or.inl rfl
  | cons b t ih =>
      intro a
      rcases ih (max a b) with h | h
      · rcases max_choice a b with hm | hm
        · exact Or.inl (by rw [List.foldl_cons, h, hm])
        · refine Or.inr ?_
          rw [List.foldl_cons, h, hm]
          exact List.mem_cons_self b t
      · exact Or.inr (List.mem_cons_of_mem b h)

/-- Helper: every row's year is at most the maximum year. -/
theorem le_maxYear (rows : List Row) : ∀ r ∈ rows, r.year ≤ maxYear rows := by
  intro r hr
  cases rows with
  | nil => cases hr
  | cons r0 rest =>
      rcases List.mem_cons.mp hr with h | h
      · subst h
        exact foldl_max_init_le (rest.map Row.year) r.year
      · exact foldl_max_mem_le (rest.map Row.year) r0.year r.year
          (List.mem_map_of_mem Row.year h)

/-- Helper: on a non-empty table the maximum year is attained. -/
theorem maxYear_mem (rows : List Row) (hne : rows ≠ []) :
    maxYear rows ∈ rows.map Row.year := by
  cases rows with
  | nil => exact absurd rfl hne
  | cons r0 rest =>
      rcases foldl_max_mem_or (rest.map Row.year) r0.year with h | h
      · show (rest.map Row.year).foldl max r0.year ∈ _
        rw [h, List.map_cons]
        exact List.mem_cons_self _ _
      · show (rest.map Row.year).foldl max r0.year ∈ _
        rw [List.map_cons]
        exact List.mem_cons_of_mem _ h

/- ==================================================================
   C7: choropleth builder
   ================================================================== -/

/-- C7: on a non-empty dataset the choropleth builder uses only the rows of
the maximum year present and produces exactly one row per (entity, isoCode)
pair, the selected energy column summed within each pair. -/
theorem create_worldwide_map_spec (rows : List Row) (t : EnergyType)
    (hne : rows ≠ []) :
    ((create_worldwide_map rows t).map (fun x => (x.1, x.2.1))).Nodup ∧
    (∀ e i : String,
      (e, i) ∈ (create_worldwide_map rows t).map (fun x => (x.1, x.2.1)) ↔
        ∃ r ∈ rows, r.year = maxYear rows ∧ r.entity = e ∧ r.iso = i) ∧
    (∀ (e i : String) (v : ℚ), (e, i, v) ∈ create_worldwide_map rows t →
      v = (((rows.filter (fun r => decide (r.year = maxYear rows))).filter
        (fun r => decide ((r.entity, r.iso) = (e, i)))).map t.col).sum) ∧
    (∀ r ∈ rows, r.year ≤ maxYear rows) ∧
    maxYear rows ∈ rows.map Row.year := by
  have hout : create_worldwide_map rows t =
      ((rows.filter (fun r => decide (r.year = maxYear rows))).map
        (fun r => (r.entity, r.iso))).dedup.map (fun k =>
          (k.1, k.2,
            (((rows.filter (fun r => decide (r.year = maxYear rows))).filter
              (fun r => decide ((r.entity, r.iso) = k))).map t.col).sum)) := rfl
  have hproj : (create_worldwide_map rows t).map (fun x => (x.1, x.2.1)) =
      ((rows.filter (fun r => decide (r.year = maxYear rows))).map
        (fun r => (r.entity, r.iso))).dedup := by
    rw [hout]
    exact map_key_eq
      (fun k : String × String => (k.1, k.2,
        (((rows.filter (fun r => decide (r.year = maxYear rows))).filter
          (fun r => decide ((r.entity, r.iso) = k))).map t.col).sum))
      (fun x => (x.1, x.2.1)) (fun k => rfl) _
  refine ⟨?_, ?_, ?_, le_maxYear rows, maxYear_mem rows hne⟩
  · rw [hproj]
    exact List.nodup_dedup _
  · intro e i
    rw [hproj, List.mem_dedup, List.mem_map]
    constructor
    · rintro ⟨r, hrM, hpair⟩
      rcases List.mem_filter.mp hrM with ⟨hr, hyr⟩
      rw [Prod.mk.injEq] at hpair
      exact ⟨r, hr, by simpa using hyr, hpair.1, hpair.2⟩
    · rintro ⟨r, hr, hy, he, hi⟩
      refine ⟨r, List.mem_filter.mpr ⟨hr, by simpa using hy⟩, ?_⟩
      rw [Prod.mk.injEq]
      exact ⟨he, hi⟩
  · intro e i v hv
    rw [hout] at hv
    obtain ⟨k, hk, hbuild⟩ := List.mem_map.mp hv
    rw [Prod.mk.injEq] at hbuild
    obtain ⟨h1, h23⟩ := hbuild
    rw [Prod.mk.injEq] at h23
    obtain ⟨h2, h3⟩ := h23
    have hk2 : k = (e, i) := by rw [← h1, ← h2]
    rw [← h3, hk2]

/-- Witness: the choropleth theorem at the spec scenario dataset. -/
theorem create_worldwide_map_spec_witness :
    maxYear tunisiaRows ∈ tunisiaRows.map Row.year :=
  (create_worldwide_map_spec tunisiaRows EnergyType.wind (by decide)).2.2.2.2

/- ==================================================================
   C1: cumulative-by-year aggregation (code bug in the Search path)
   ================================================================== -/

/-- C1 (code bug): on the spec scenario input the Energy Types area path
(`cumsum` before `reset_index`, app.py line 152) preserves the years and
yields wind 4 and solar 2 at 2021, exactly as the claim states; but the
Search area path (app.py line 532) applies `cumsum` after `reset_index`,
so the Year column itself is cumulatively summed: its table is
[(2020, 1), (4041, 4)] and holds no entry at year 2021, so the claimed
equality fails on that code path. -/
theorem search_area_cumsum_year_bug :
    create_energy_area_fig tunisiaRows true =
      [{ year := 2020, wind := 1, hydro := 0, solar := 2, other := 0 },
       { year := 2021, wind := 4, hydro := 0, solar := 2, other := 0 }] ∧
    searchAreaData tunisiaRows EnergyType.wind = [(2020, 1), (4041, 4)] ∧
    (2021 : Int) ∉ (searchAreaData tunisiaRows EnergyType.wind).map Prod.fst := by
  have hy : sortedYears tunisiaRows = [2020, 2021] := by decide
  have hagg : perYearAgg tunisiaRows =
      [{ year := 2020, wind := 1, hydro := 0, solar := 2, other := 0 },
       { year := 2021, wind := 3, hydro := 0, solar := 0, other := 0 }] := by
    simp only [perYearAgg, hy]
    norm_num [tunisiaRows]
  have hps : perYearSum tunisiaRows EnergyType.wind.col = [(2020, 1), (2021, 3)] := by
    simp only [perYearSum, hy]
    norm_num [tunisiaRows, EnergyType.col]
  refine ⟨?_, ?_, ?_⟩
  · simp only [create_energy_area_fig, if_pos rfl, hagg]
    norm_num [cumAgg]
  · simp only [searchAreaData, hps]
    norm_num [cumAux2]
  · simp only [searchAreaData, hps]
    norm_num [cumAux2]

/- ==================================================================
   C2: inclusive year-range filter
   ================================================================== -/

/-- C2: `filterByYearRange rows a b` returns exactly the rows of `rows`
whose year satisfies `a ≤ year ≤ b`, inclusive at both ends, and for
`a = b` it coincides with `filterByYear rows a`. -/
theorem filterByYearRange_spec :
    ∀ (rows : List Row) (a b : Int),
      (∀ r : Row, r ∈ filterByYearRange rows a b ↔
        (r ∈ rows ∧ a ≤ r.year ∧ r.year ≤ b)) ∧
      filterByYearRange rows a a = filterByYear rows a := by
  intro rows a b
  constructor
  · intro r
    simp [filterByYearRange, List.mem_filter, and_assoc]
  · unfold filterByYearRange filterByYear
    apply List.filter_congr
    intro r _
    by_cases h : r.year = a
    · simp [h]
    · simp [h]
      omega

/- ==================================================================
   C5: load-time error taxonomy
   ================================================================== -/

/-- C5: `load_data` fails with a file-not-found error when the file is
absent, with a format error when the CSV is unparseable, propagates any
other load-time exception unchanged, and returns the reshaped dataset in
exactly the remaining case. -/
theorem load_data_error_taxonomy :
    ∀ (table : List RawRow) (m e : String),
      (load_data (ReadResult.ok table) = Except.ok (table.map loadRow)) ∧
      (load_data (ReadResult.fileNotFound m) = Except.error
        (LoadError.notFound
          "The data file modern-renewable-prod.csv was not found.")) ∧
      (load_data (ReadResult.parserError m) = Except.error
        (LoadError.format
          "Error parsing the CSV file. Please check the file format.")) ∧
      (load_data (ReadResult.otherError e) = Except.error (LoadError.other e)) ∧
      (∀ input : ReadResult,
        (∃ d, load_data input = Except.ok d) ↔ ∃ tb, input = ReadResult.ok tb) := by
  intro table m e
  refine ⟨rfl, rfl, rfl, rfl, ?_⟩
  intro input
  cases input <;> simp [load_data]

/- ==================================================================
   C9: PreventUpdate in the Worldwide view
   ================================================================== -/

/-- C9: with no energy type selected, the map callback suppresses the
update (`PreventUpdate`) and produces no figure; with a selection it
rebuilds the choropleth from the working dataset. -/
theorem update_worldwide_map_prevent :
    ∀ (rows : List Row),
      update_worldwide_map rows none = MapOut.preventUpdate ∧
      (∀ d : List (String × String × ℚ),
        update_worldwide_map rows none ≠ MapOut.figure d) ∧
      (∀ t : EnergyType,
        update_worldwide_map rows (some t) =
          MapOut.figure (create_worldwide_map rows t)) := by
  intro rows
  refine ⟨rfl, ?_, fun t => rfl⟩
  intro d h
  exact MapOut.noConfusion h

/- ==================================================================
   C8: year windows of the Energy Types view
   ================================================================== -/

/-- C8: with a selected year, a non-empty entity selection and a non-empty
filtered result, the Energy Types callback builds the pie and bar charts
only from the rows whose year equals the selected year, while the
cumulative area chart is computed from all rows of the selected entities
with year at most the selected year: its entries range over exactly those
years, and each entry's columns sum every eligible row up to the entry's
year. -/
theorem update_energy_types_year_windows (rows : List Row) (Y : Int)
    (es : List String) (hes : es ≠ [])
    (hne : rows.filter (fun r =>
      decide (r.year = Y) && es.contains r.entity) ≠ []) :
    (update_energy_types rows (some Y) es =
      ViewOut.charts
        (create_energy_pie_fig (rows.filter (fun r =>
          decide (r.year = Y) && es.contains r.entity)) Y)
        (create_energy_area_fig (rows.filter (fun r =>
          decide (r.year ≤ Y) && es.contains r.entity)) true)
        (rows.filter (fun r => decide (r.year = Y) && es.contains r.entity))) ∧
    (∀ r : Row, r ∈ rows.filter (fun r =>
        decide (r.year = Y) && es.contains r.entity) ↔
      (r ∈ rows ∧ r.year = Y ∧ r.entity ∈ es)) ∧
    (∀ t : EnergyType,
      (t.columnName, ((rows.filter (fun r =>
        decide (r.year = Y) && es.contains r.entity)).map t.col).sum) ∈
        create_energy_pie_fig (rows.filter (fun r =>
          decide (r.year = Y) && es.contains r.entity)) Y) ∧
    (∀ x ∈ create_energy_area_fig (rows.filter (fun r =>
        decide (r.year ≤ Y) && es.contains r.entity)) true,
      x.year ≤ Y ∧ ∀ t : EnergyType,
        t.agg x = ((rows.filter (fun r =>
          decide (r.year ≤ x.year) && es.contains r.entity)).map t.col).sum) ∧
    (∀ y : Int,
      (∃ x ∈ create_energy_area_fig (rows.filter (fun r =>
        decide (r.year ≤ Y) && es.contains r.entity)) true, x.year = y) ↔
      (∃ r ∈ rows, r.entity ∈ es ∧ r.year ≤ Y ∧ r.year = y)) := by
  refine ⟨by simp only [update_energy_types, if_neg hes, if_neg hne], ?_, ?_, ?_, ?_⟩
  · intro r
    rw [List.mem_filter]
    simp [and_assoc]
  · intro t
    rw [create_energy_pie_fig_eq]
    exact List.mem_map_of_mem _ (mem_energyTypesList t)
  · intro x hx
    have hyearle : x.year ≤ Y := by
      have hmem : x.year ∈ (create_energy_area_fig (rows.filter (fun r =>
          decide (r.year ≤ Y) && es.contains r.entity)) true).map YearAgg.year :=
        List.mem_map_of_mem YearAgg.year hx
      rw [area_years] at hmem
      obtain ⟨r, hrE, hry⟩ := (mem_sortedYears _ _).mp hmem
      rcases List.mem_filter.mp hrE with ⟨hr, hcond⟩
      simp at hcond
      omega
    refine ⟨hyearle, ?_⟩
    intro t
    rw [area_entry _ t x hx]
    have hfeq : (rows.filter (fun r =>
        decide (r.year ≤ Y) && es.contains r.entity)).filter
          (fun r => decide (r.year ≤ x.year)) =
        rows.filter (fun r => decide (r.year ≤ x.year) && es.contains r.entity) := by
      rw [List.filter_filter]
      apply List.filter_congr
      intro r _
      by_cases hc : r.entity ∈ es
      · by_cases h1 : r.year ≤ x.year
        · have h2 : r.year ≤ Y := le_trans h1 hyearle
          simp [hc, h1, h2]
        · simp [hc, h1]
      · simp [hc]
    rw [hfeq]
  · intro y
    constructor
    · rintro ⟨x, hx, hxy⟩
      have hmem : x.year ∈ (create_energy_area_fig (rows.filter (fun r =>
          decide (r.year ≤ Y) && es.contains r.entity)) true).map YearAgg.year :=
        List.mem_map_of_mem YearAgg.year hx
      rw [area_years] at hmem
      obtain ⟨r, hrE, hry⟩ := (mem_sortedYears _ _).mp hmem
      rcases List.mem_filter.mp hrE with ⟨hr, hcond⟩
      simp at hcond
      exact ⟨r, hr, hcond.2, hcond.1, by omega⟩
    · rintro ⟨r, hr, hent, hle, hry⟩
      have hrE : r ∈ rows.filter (fun r =>
          decide (r.year ≤ Y) && es.contains r.entity) :=
        List.mem_filter.mpr ⟨hr, by simp [hle, hent]⟩
      have hy : y ∈ sortedYears (rows.filter (fun r =>
          decide (r.year ≤ Y) && es.contains r.entity)) :=
        (mem_sortedYears _ _).mpr ⟨r, hrE, hry⟩
      rw [← area_years] at hy
      obtain ⟨x, hx, hxy⟩ := List.mem_map.mp hy
      exact ⟨x, hx, hxy⟩

/-- Witness: the Energy Types callback at the spec scenario input, selected
year 2021 and the single entity Tunisia. -/
theorem update_energy_types_year_windows_witness :
    update_energy_types tunisiaRows (some 2021) ["Tunisia"] =
      ViewOut.charts
        (create_energy_pie_fig (tunisiaRows.filter (fun r =>
          decide (r.year = 2021) && ["Tunisia"].contains r.entity)) 2021)
        (create_energy_area_fig (tunisiaRows.filter (fun r =>
          decide (r.year ≤ 2021) && ["Tunisia"].contains r.entity)) true)
        (tunisiaRows.filter (fun r =>
          decide (r.year = 2021) && ["Tunisia"].contains r.entity)) :=
  (update_energy_types_year_windows tunisiaRows 2021 ["Tunisia"]
    (by decide) (by decide)).1

end EnergyDashboard
